import Mathlib

/-!
Verification of the input-to-command translation core of the
MDOF-VR-IndustrialVis-UI control panel.

The embedding models, faithfully to the Python source:
* `src/ui/main_window.py` — the `MainWindow` gamepad pipeline:
  `setup_gamepad`, `control_x_axis` / `control_y_axis` / `control_z_axis`,
  `control_yaw` / `control_pitch` / `control_roll`, `calibrate_device`,
  `disconnect_device`, `send_command` and `read_gamepad_input`;
* `src/lisu/udp_manager.py` — `UDPManager.connect`, `UDPManager.disconnect`
  and `UDPManager.send_message`;
* `src/lisu/command_handler.py` — `CommandHandler.process_input`,
  `CommandHandler.format_command` and `CommandHandler.send_command`.

Python floats are modelled as rationals (the operations involved —
addition, negation, absolute value, comparisons, `min`/`max` — are exact).
I/O effects (pygame reads, the wall clock, text-field parses, UDP socket
creation and transmission outcomes) enter as explicit parameters.
-/

/-- Number of non-overlapping occurrences of the placeholder substring
that the source counts with `command_format.count` in
`MainWindow.send_command` (main_window.py:1118), scanning left to right
exactly as Python's `str.count` does. -/
def countPlaceholders : List Char → Nat
  | '%' :: '.' :: '2' :: 'f' :: rest => countPlaceholders rest + 1
  | _ :: rest => countPlaceholders rest
  | [] => 0

/-- Placeholder arity of a template string (main_window.py:1118). -/
def placeholderCount (s : String) : Nat :=
  countPlaceholders s.data

/-- Model of the arity and formatting stage of `MainWindow.send_command`
(main_window.py:1110-1132). `formats` is the configured `command_formats`
table; the result is `some args` when the arity check passes and a
command string with exactly those numeric arguments is formatted and
carried on to the transmit step, and `none` when the function returns
`False` before even reaching it: unknown command type, unsupported
placeholder count, or a 4-placeholder template with no `scale` supplied
(in Python the `%` formatting of `None` raises, is caught, and `False`
is returned). Whether the transmit step itself then delivers a datagram
is a separate question, modelled by `send_command_transmits` below; in
this program it never does, because the socket field is never created
(main_window.py:27). -/
def send_command (formats : String → Option String) (cmd_type : String)
    (x y z : ℚ) (scale : Option ℚ) : Option (List ℚ) :=
  match formats cmd_type with
  | none => none
  | some command_format =>
    let param_count := placeholderCount command_format
    if param_count = 3 then some [x, y, z]
    else if param_count = 4 then
      match scale with
      | some s => some [x, y, z, s]
      | none => none
    else none

/-- Outcome of the `self.udp_socket.sendto` call (main_window.py:1138):
when the stored socket is `None`, Python raises `AttributeError` before
any datagram leaves the process; when a socket object is present,
success additionally depends on the network environment. -/
def sendto_succeeds (udp_socket : Option Nat) (network_ok : Bool) : Bool :=
  match udp_socket with
  | none => false
  | some _ => network_ok

/-- Full transmit path of `MainWindow.send_command`
(main_window.py:1110-1158): a datagram is actually transmitted (the
function returns `True`) exactly when the arity stage produces
arguments, the port text parses as an integer (main_window.py:1136;
a failing `int(...)` raises `ValueError`, caught at main_window.py:1152),
and the `sendto` call does not raise. -/
def send_command_transmits (formats : String → Option String)
    (cmd_type : String) (x y z : ℚ) (scale : Option ℚ)
    (port : Option Nat) (udp_socket : Option Nat) (network_ok : Bool) : Bool :=
  match send_command formats cmd_type x y z scale with
  | none => false
  | some _ =>
    match port with
    | none => false
    | some _ => sendto_succeeds udp_socket network_ok

/-- The socket value every transmit in the program reads:
`MainWindow.__init__` initialises `self.udp_socket = None`
(main_window.py:27) and no other statement in the program ever assigns
that attribute, so `send_command` (main_window.py:1138), the calibration
reset sends (main_window.py:807, 826, 839) and `closeEvent`
(main_window.py:1274) all operate on `None`. -/
def main_window_udp_socket : Option Nat := none

/-- The six independent axis-mapping booleans of `MainWindow`
(`setup_gamepad`, main_window.py:621-627). -/
structure MappingFlags where
  x_mapping : Bool
  y_mapping : Bool
  z_mapping : Bool
  yaw_mapping : Bool
  pitch_mapping : Bool
  roll_mapping : Bool
deriving DecidableEq

/-- Initial flag state from `setup_gamepad` (main_window.py:621-627):
all six mapping flags start `False`. -/
def setup_gamepad_flags : MappingFlags :=
  ⟨false, false, false, false, false, false⟩

/-- Flag mutation of `MainWindow.control_x_axis` (main_window.py:713-715):
sets `x_mapping` and clears only `y_mapping` and `z_mapping`. -/
def control_x_axis (f : MappingFlags) : MappingFlags :=
  { f with x_mapping := true, y_mapping := false, z_mapping := false }

/-- Flag mutation of `MainWindow.control_y_axis` (main_window.py:729-731). -/
def control_y_axis (f : MappingFlags) : MappingFlags :=
  { f with x_mapping := false, y_mapping := true, z_mapping := false }

/-- Flag mutation of `MainWindow.control_z_axis` (main_window.py:745-747). -/
def control_z_axis (f : MappingFlags) : MappingFlags :=
  { f with x_mapping := false, y_mapping := false, z_mapping := true }

/-- Flag mutation of `MainWindow.control_yaw` (main_window.py:1304-1306):
sets `yaw_mapping` and clears only `pitch_mapping` and `roll_mapping`. -/
def control_yaw (f : MappingFlags) : MappingFlags :=
  { f with yaw_mapping := true, pitch_mapping := false, roll_mapping := false }

/-- Flag mutation of `MainWindow.control_pitch` (main_window.py:1321-1323). -/
def control_pitch (f : MappingFlags) : MappingFlags :=
  { f with yaw_mapping := false, pitch_mapping := true, roll_mapping := false }

/-- Flag mutation of `MainWindow.control_roll` (main_window.py:1338-1340). -/
def control_roll (f : MappingFlags) : MappingFlags :=
  { f with yaw_mapping := false, pitch_mapping := false, roll_mapping := true }

/-- One user mode-selection action. -/
inductive ModeOp where
  | x | y | z | yaw | pitch | roll
deriving DecidableEq

/-- Apply one mode-selection action to the flag state. -/
def applyMode (f : MappingFlags) : ModeOp → MappingFlags
  | .x => control_x_axis f
  | .y => control_y_axis f
  | .z => control_z_axis f
  | .yaw => control_yaw f
  | .pitch => control_pitch f
  | .roll => control_roll f

/-- Apply a sequence of mode-selection actions, oldest first. -/
def applyModes (f : MappingFlags) (l : List ModeOp) : MappingFlags :=
  l.foldl applyMode f

/-- The flag a given mode-selection action sets. -/
def flagOf (op : ModeOp) (f : MappingFlags) : Bool :=
  match op with
  | .x => f.x_mapping
  | .y => f.y_mapping
  | .z => f.z_mapping
  | .yaw => f.yaw_mapping
  | .pitch => f.pitch_mapping
  | .roll => f.roll_mapping

/-- Number of active (true) mapping flags. -/
def activeCount (f : MappingFlags) : Nat :=
  f.x_mapping.toNat + f.y_mapping.toNat + f.z_mapping.toNat +
    f.yaw_mapping.toNat + f.pitch_mapping.toNat + f.roll_mapping.toNat

/-- Number of active flags in the translation group (x/y/z). -/
def xyzCount (f : MappingFlags) : Nat :=
  f.x_mapping.toNat + f.y_mapping.toNat + f.z_mapping.toNat

/-- Number of active flags in the rotation group (yaw/pitch/roll). -/
def yprCount (f : MappingFlags) : Nat :=
  f.yaw_mapping.toNat + f.pitch_mapping.toNat + f.roll_mapping.toNat

/-- Argument assembly of `MainWindow.read_gamepad_input`
(main_window.py:1228-1242): the `if/elif` chain over the six mapping
flags, in source order, selecting the `(x, y, z)` arguments passed to
`send_command` from the filtered axis values. -/
def mapArgs (f : MappingFlags) (x_axis y_axis : ℚ) : ℚ × ℚ × ℚ :=
  if f.x_mapping then (x_axis, 0, 0)
  else if f.y_mapping then (0, -y_axis, 0)
  else if f.z_mapping then (0, 0, -y_axis)
  else if f.yaw_mapping then (0, x_axis, 0)
  else if f.pitch_mapping then (-y_axis, 0, 0)
  else if f.roll_mapping then (0, 0, x_axis)
  else (x_axis, -y_axis, 0)

/-- The mutable `MainWindow` session state touched by the gamepad
pipeline: reading flag and timer (main_window.py:614-617), gamepad handle
(as a connected bit), calibration offsets (main_window.py:618-619),
previous-tick filtered axis values and last send time
(main_window.py:1199-1211), mapping flags, and whether the UDP socket is
open. -/
structure ReaderState where
  is_reading_input : Bool
  gamepad_connected : Bool
  timer_active : Bool
  x_offset : ℚ
  y_offset : ℚ
  prev_x_axis : ℚ
  prev_y_axis : ℚ
  last_send_time : ℚ
  flags : MappingFlags
  udp_socket_open : Bool
deriving DecidableEq

/-- The per-tick inputs of `read_gamepad_input` that come from outside
the session state: the raw pygame axis reads, the wall-clock time in
seconds, the parse of the rotation-angle text field (`none` when
`float(...)` raises `ValueError`), and the selected command type. -/
structure TickInput where
  raw_x : ℚ
  raw_y : ℚ
  now : ℚ
  rotation_text : Option ℚ
  cmd_type : String
deriving DecidableEq

/-- Calibration application (main_window.py:1196-1197): filtered axis
values are the raw reads plus the stored offsets. -/
def filtered_axes (st : ReaderState) (raw_x raw_y : ℚ) : ℚ × ℚ :=
  (raw_x + st.x_offset, raw_y + st.y_offset)

/-- Model of `MainWindow.read_gamepad_input` (main_window.py:1186-1259) as a state
transformer. Returns the new state and `some args` exactly when the
dispatch branch invoked `send_command` on this tick and its arity stage
formatted `args` (the transmit step that would follow is modelled by
`send_command_transmits`, and in this program always fails because the
socket is never created, main_window.py:27).
Thresholds from the source: position threshold `0.1`
(main_window.py:1206, 1220), movement delta `0.01`
(main_window.py:1216-1217), rate-limit interval `0.1` seconds
(main_window.py:1221). `prev_x_axis`/`prev_y_axis` are updated at the end
of every processed tick (main_window.py:1252-1253); `last_send_time` is
updated only on a tick whose rotation text parses and that reaches the
dispatch branch (main_window.py:1245). -/
def read_gamepad_input (formats : String → Option String) (st : ReaderState)
    (inp : TickInput) : ReaderState × Option (List ℚ) :=
  if ¬ st.is_reading_input ∨ ¬ st.gamepad_connected then (st, none)
  else
    let x_axis := (filtered_axes st inp.raw_x inp.raw_y).1
    let y_axis := (filtered_axes st inp.raw_x inp.raw_y).2
    let time_diff := inp.now - st.last_send_time
    if (1/10 < |x_axis| ∨ 1/10 < |y_axis|) ∧
        (1/100 < |x_axis - st.prev_x_axis| ∨ 1/100 < |y_axis - st.prev_y_axis|) then
      if 1/10 ≤ time_diff then
        match inp.rotation_text with
        | none =>
            ({ st with prev_x_axis := x_axis, prev_y_axis := y_axis }, none)
        | some scale =>
            let args := mapArgs st.flags x_axis y_axis
            let sent := send_command formats inp.cmd_type args.1 args.2.1 args.2.2
              (some scale)
            ({ st with
                prev_x_axis := x_axis
                prev_y_axis := y_axis
                last_send_time := inp.now }, sent)
      else ({ st with prev_x_axis := x_axis, prev_y_axis := y_axis }, none)
    else ({ st with prev_x_axis := x_axis, prev_y_axis := y_axis }, none)

/-- Gamepad-branch calibration of `MainWindow.calibrate_device`
(main_window.py:796-802): the offsets are set to the elementwise negation
of the baseline raw reads. The transient pause/resume of reading restores
the prior reading flag (main_window.py:789-817), and the out-of-band
`reset` datagram does not touch session state, so neither appears in the
state transform. -/
def calibrate_device (st : ReaderState) (x_baseline y_baseline : ℚ) : ReaderState :=
  { st with x_offset := -x_baseline, y_offset := -y_baseline }

/-- Model of `MainWindow.disconnect_device` (main_window.py:1164-1184), gamepad
branch: stops reading, stops the input timer and drops the gamepad
handle. No other field is written; in particular the UDP socket is not
closed and the calibration offsets are not touched. -/
def disconnect_device (st : ReaderState) : ReaderState :=
  if st.gamepad_connected then
    { st with
        is_reading_input := false
        timer_active := false
        gamepad_connected := false }
  else st

/-- State of `UDPManager` (udp_manager.py:7-10): the socket handle (modelled
as an optional identifier) and the target address. -/
structure UDPManager where
  socket : Option Nat
  target_ip : String
  target_port : Nat
deriving DecidableEq

/-- Model of `UDPManager.connect` (udp_manager.py:35-42): socket creation; the
environment supplies `some s` on success and `none` when the constructor
raises (in which case the stored field is left unchanged). -/
def UDPManager.connect (m : UDPManager) (new_socket : Option Nat) :
    UDPManager × Bool :=
  match new_socket with
  | some s => ({ m with socket := some s }, true)
  | none => (m, false)

/-- Model of `UDPManager.disconnect` (udp_manager.py:44-48): closes and clears the
socket when one is open, does nothing otherwise. -/
def UDPManager.disconnect (m : UDPManager) : UDPManager :=
  if m.socket.isSome then { m with socket := none } else m

/-- Model of `UDPManager.send_message` (udp_manager.py:50-61): lazily connects when
no socket is open, then attempts one transmit; a transmit exception is
caught and reported as `false` without touching the socket field. -/
def UDPManager.send_message (m : UDPManager) (msg : String)
    (new_socket : Option Nat) (transmit_ok : Bool) : UDPManager × Bool :=
  match m.socket with
  | none =>
    match m.connect new_socket with
    | (m', true) => if transmit_ok then (m', true) else (m', false)
    | (m', false) => (m', false)
  | some _ => if transmit_ok then (m, true) else (m, false)

/-- Model of `CommandHandler.process_input` (command_handler.py:57-61):
clamps the raw value to `[-1, 1]` as `max(min(raw_value, 1.0), -1.0)`. -/
def CommandHandler.process_input (device_type axis : String) (raw_value : ℚ) : ℚ :=
  max (min raw_value 1) (-1)

/-- Model of `CommandHandler.format_command` (command_handler.py:45-55):
looks up the template for `(device_type, axis)` and formats
`(value, duration)` into it; `none` models the `ValueError` raised for an
unknown device type or axis. The result carries the numeric payload
substituted into the template. -/
def CommandHandler.format_command (command_config : String → String → Option String)
    (device_type axis : String) (value duration : ℚ) : Option (ℚ × ℚ) :=
  match command_config device_type axis with
  | none => none
  | some _ => some (value, duration)

/-- Model of `CommandHandler.send_command` (command_handler.py:63-79): processes the
input value, then formats it; returns `none` when formatting raised (the
exception is caught and `False` returned). The `some` payload is the
numeric value actually formatted into the outgoing command. -/
def CommandHandler.send_command (command_config : String → String → Option String)
    (device_type axis : String) (value duration : ℚ) : Option (ℚ × ℚ) :=
  CommandHandler.format_command command_config device_type axis
    (CommandHandler.process_input device_type axis value) duration

/-! ## Concrete fixtures used by counterexamples and witnesses -/

/-- A concrete `command_formats` table holding the three-placeholder
template used by the `move` command. -/
def fmts_move : String → Option String :=
  fun s => if s = "move" then some "move %.2f %.2f %.2f" else none

/-- A connected, reading session with zero offsets, zero previous sample
and a last send one second in the past. -/
def st_ready : ReaderState :=
  ⟨true, true, true, 0, 0, 0, 0, -1, setup_gamepad_flags, true⟩

/-- A connected, reading session carrying nonzero calibration offsets. -/
def st_offsets : ReaderState :=
  ⟨true, true, true, 1/2, -1/3, 0, 0, 0, setup_gamepad_flags, true⟩

/-- A tick at time 0 with the stick pushed halfway right. -/
def tick1 : TickInput := ⟨1/2, 0, 0, some 40, "move"⟩

/-- The session state after `tick1` is processed from `st_ready`. -/
def st_after : ReaderState :=
  ⟨true, true, true, 0, 0, 1/2, 0, 0, setup_gamepad_flags, true⟩

/-! ## Single-mode flag states (exactly one mapping flag set) -/

/-- Only `x_mapping` set. -/
def only_x : MappingFlags := ⟨true, false, false, false, false, false⟩

/-- Only `y_mapping` set. -/
def only_y : MappingFlags := ⟨false, true, false, false, false, false⟩

/-- Only `z_mapping` set. -/
def only_z : MappingFlags := ⟨false, false, true, false, false, false⟩

/-- Only `yaw_mapping` set. -/
def only_yaw : MappingFlags := ⟨false, false, false, true, false, false⟩

/-- Only `pitch_mapping` set. -/
def only_pitch : MappingFlags := ⟨false, false, false, false, true, false⟩

/-- Only `roll_mapping` set. -/
def only_roll : MappingFlags := ⟨false, false, false, false, false, true⟩

/-! ## Claim theorems -/

/-- Claim C5: calibrating at a raw sample `(rx, ry)` stores the
elementwise negation of that sample as the offset
(main_window.py:801-802), and applying the offset to the same raw sample
(main_window.py:1196-1197) yields the all-zero filtered sample — exactly
zero in the rational model, hence within any floating-point tolerance. -/
theorem calibrate_then_apply_is_zero (st : ReaderState) (rx ry : ℚ) :
    filtered_axes (calibrate_device st rx ry) rx ry = (0, 0) := by
  simp [filtered_axes, calibrate_device]

/-- Claim C3: the argument assembly of `read_gamepad_input`
(main_window.py:1228-1242). With a single mapping flag active, exactly
one spatial component carries the live filtered device value and the
other two are zero; the physical-Y value is used in the Y, Z and Pitch
modes — its three possible destinations: the spatial-Y slot, the Z slot
(roll rotation) and the X slot (pitch rotation) — and is sign-inverted in
all of them, while physical X is never inverted. With no flag active the
default maps physical X to spatial X, inverted physical Y to spatial Y,
and zero to spatial Z. -/
theorem mapArgs_by_mode (x_axis y_axis : ℚ) :
    mapArgs only_x x_axis y_axis = (x_axis, 0, 0)
  ∧ mapArgs only_y x_axis y_axis = (0, -y_axis, 0)
  ∧ mapArgs only_z x_axis y_axis = (0, 0, -y_axis)
  ∧ mapArgs only_yaw x_axis y_axis = (0, x_axis, 0)
  ∧ mapArgs only_pitch x_axis y_axis = (-y_axis, 0, 0)
  ∧ mapArgs only_roll x_axis y_axis = (0, 0, x_axis)
  ∧ mapArgs setup_gamepad_flags x_axis y_axis = (x_axis, -y_axis, 0) :=
  ⟨rfl, rfl, rfl, rfl, rfl, rfl, rfl⟩

/-- Claim C9: `CommandHandler.process_input` clamps every raw value to
`[-1, 1]` as `max(min(v, 1), -1)`, leaves values already in that interval
unchanged, and consequently every value formatted by
`CommandHandler.send_command` lies in `[-1, 1]`. -/
theorem process_input_clamps (device_type axis : String) (v duration : ℚ)
    (command_config : String → String → Option String) :
    CommandHandler.process_input device_type axis v = max (min v 1) (-1)
  ∧ -1 ≤ CommandHandler.process_input device_type axis v
  ∧ CommandHandler.process_input device_type axis v ≤ 1
  ∧ (-1 ≤ v → v ≤ 1 → CommandHandler.process_input device_type axis v = v)
  ∧ (∀ w d, CommandHandler.send_command command_config device_type axis v duration
        = some (w, d) → -1 ≤ w ∧ w ≤ 1) := by
  refine ⟨rfl, le_max_right _ _, ?_, ?_, ?_⟩
  · exact max_le (le_trans (min_le_right _ _) le_rfl) (by norm_num)
  · intro hlo hhi
    unfold CommandHandler.process_input
    rw [min_eq_left hhi, max_eq_left hlo]
  · intro w d hw
    unfold CommandHandler.send_command CommandHandler.format_command at hw
    cases hcfg : command_config device_type axis with
    | none => rw [hcfg] at hw; exact absurd hw (by simp)
    | some t =>
      rw [hcfg] at hw
      simp only [Option.some.injEq, Prod.mk.injEq] at hw
      rcases hw with ⟨hw1, _⟩
      subst hw1
      exact ⟨le_max_right _ _,
        max_le (le_trans (min_le_right _ _) le_rfl) (by norm_num)⟩

/-- Witness for C9 at a concrete input: the in-range value `1/2` passes
through unchanged. -/
theorem process_input_clamps_witness :
    CommandHandler.process_input "gamepad" "axis_0" (1/2) = 1/2 :=
  (process_input_clamps "gamepad" "axis_0" (1/2) 1 (fun _ _ => none)).2.2.2.1
    (by norm_num) (by norm_num)

/-- Claim C10: `UDPManager.disconnect` always leaves the socket field
`None`, never touches the target address or port, never raises (it is a
total function of the state), and is idempotent. -/
theorem disconnect_idempotent (m : UDPManager) :
    m.disconnect.socket = none
  ∧ m.disconnect.target_ip = m.target_ip
  ∧ m.disconnect.target_port = m.target_port
  ∧ m.disconnect.disconnect = m.disconnect := by
  unfold UDPManager.disconnect
  cases h : m.socket <;> simp [h]

/-- Any flag state reachable by mode selections has at most one active
flag in the x/y/z group and at most one in the yaw/pitch/roll group:
each `control_*` handler clears exactly the other two flags of its own
group (main_window.py:713-715, 729-731, 745-747, 1304-1306, 1321-1323,
1338-1340). -/
theorem applyMode_group_inv (f : MappingFlags) (op : ModeOp)
    (h : xyzCount f ≤ 1 ∧ yprCount f ≤ 1) :
    xyzCount (applyMode f op) ≤ 1 ∧ yprCount (applyMode f op) ≤ 1 := by
  cases op <;>
    simp [applyMode, control_x_axis, control_y_axis, control_z_axis,
      control_yaw, control_pitch, control_roll, xyzCount, yprCount] <;>
    first
    | exact h.1
    | exact h.2

/-- Group exclusivity is preserved along any action sequence. -/
theorem applyModes_group_inv (l : List ModeOp) (f : MappingFlags)
    (h : xyzCount f ≤ 1 ∧ yprCount f ≤ 1) :
    xyzCount (applyModes f l) ≤ 1 ∧ yprCount (applyModes f l) ≤ 1 := by
  induction l generalizing f with
  | nil => exact h
  | cons op rest ih =>
    simpa [applyModes, List.foldl_cons] using
      ih (applyMode f op) (applyMode_group_inv f op h)

/-- Claim C4 (counterexample): the claim "at most one axis mapping mode
is active at a time; selecting a mode is never additive" is false on the
code. Selecting the X translation mode (`control_x_axis`) and then the
Yaw rotation mode (`control_yaw`) leaves both `x_mapping` and
`yaw_mapping` true simultaneously, because `control_yaw` clears only
`pitch_mapping` and `roll_mapping` (main_window.py:1304-1306), not the
x/y/z group. -/
theorem two_modes_active_after_x_then_yaw :
    activeCount (applyModes setup_gamepad_flags [ModeOp.x, ModeOp.yaw]) = 2
  ∧ (applyModes setup_gamepad_flags [ModeOp.x, ModeOp.yaw]).x_mapping = true
  ∧ (applyModes setup_gamepad_flags [ModeOp.x, ModeOp.yaw]).yaw_mapping = true := by
  decide

/-- Claim C4 (amended): after any sequence of mode selections starting
from `setup_gamepad`, each of the two groups — translation (X/Y/Z) and
rotation (Yaw/Pitch/Roll) — has at most one active flag, a selection is
never additive within its own group, and the most recently selected
mode's flag is always active; but a flag from each group can be active
at the same time (the per-tick dispatch then resolves the conflict by
the fixed priority x, y, z, yaw, pitch, roll of `mapArgs`). -/
theorem mode_selection_groupwise_exclusive (l : List ModeOp) (op : ModeOp) :
    xyzCount (applyModes setup_gamepad_flags l) ≤ 1
  ∧ yprCount (applyModes setup_gamepad_flags l) ≤ 1
  ∧ flagOf op (applyModes setup_gamepad_flags (l ++ [op])) = true := by
  refine ⟨(applyModes_group_inv l setup_gamepad_flags (by decide)).1,
    (applyModes_group_inv l setup_gamepad_flags (by decide)).2, ?_⟩
  rw [applyModes, List.foldl_append]
  cases op <;> rfl

/-- Claim C6 (counterexample): the claim that `disconnect_device` resets
the calibration offsets to zero is false on the code. From a connected
session with offsets `(1/2, -1/3)`, the gamepad branch of
`disconnect_device` (main_window.py:1168-1177) stops reading, stops the
timer and drops the handle, but never writes `x_offset`/`y_offset`: both
remain nonzero after the disconnect. -/
theorem disconnect_device_keeps_offsets :
    (disconnect_device st_offsets).x_offset = 1/2
  ∧ (disconnect_device st_offsets).x_offset ≠ 0
  ∧ (disconnect_device st_offsets).y_offset = -1/3
  ∧ (disconnect_device st_offsets).y_offset ≠ 0 := by
  norm_num [disconnect_device, st_offsets]

/-- Claim C6 (amended): for a connected gamepad session,
`disconnect_device` stops the input timer, stops reading, releases the
device handle, and does not close the datagram transport; the
calibration offsets are left unchanged (they are not reset to zero). -/
theorem disconnect_device_stops_session (st : ReaderState)
    (h : st.gamepad_connected = true) :
    (disconnect_device st).is_reading_input = false
  ∧ (disconnect_device st).timer_active = false
  ∧ (disconnect_device st).gamepad_connected = false
  ∧ (disconnect_device st).udp_socket_open = st.udp_socket_open
  ∧ (disconnect_device st).x_offset = st.x_offset
  ∧ (disconnect_device st).y_offset = st.y_offset := by
  simp [disconnect_device, h]

/-- Witness for the amended C6 at the concrete connected session
`st_offsets`. -/
theorem disconnect_device_stops_session_witness :
    (disconnect_device st_offsets).is_reading_input = false
  ∧ (disconnect_device st_offsets).timer_active = false
  ∧ (disconnect_device st_offsets).gamepad_connected = false
  ∧ (disconnect_device st_offsets).udp_socket_open = st_offsets.udp_socket_open
  ∧ (disconnect_device st_offsets).x_offset = st_offsets.x_offset
  ∧ (disconnect_device st_offsets).y_offset = st_offsets.y_offset :=
  disconnect_device_stops_session st_offsets rfl

/-- Number of numeric arguments supplied to `MainWindow.send_command`:
`x`, `y`, `z` always, plus `scale` when it is passed. -/
def suppliedArgCount (scale : Option ℚ) : Nat :=
  3 + (if scale.isSome then 1 else 0)

/-- Claim C7 (counterexample): the claim that formatting fails whenever
the placeholder count does not equal the number of supplied numeric
arguments is false on the code. With the three-placeholder `move`
template and four supplied arguments (`scale` is passed), the
placeholder count (3) differs from the supplied count (4), yet
`send_command` succeeds and dispatches `[1, 2, 3]`, silently ignoring
`scale` (main_window.py:1121-1122 select only `(x, y, z)` whenever the
count is 3). -/
theorem send_command_ignores_extra_scale :
    placeholderCount "move %.2f %.2f %.2f" = 3
  ∧ suppliedArgCount (some 5) = 4
  ∧ send_command fmts_move "move" 1 2 3 (some 5) = some [1, 2, 3] :=
  ⟨rfl, rfl, rfl⟩

/-- Claim C7 (amended): `send_command` fails — returns `False`, sends no
datagram — exactly when the command type has no template, or the
template's placeholder count (obtained by counting `%.2f` occurrences)
is neither 3 nor 4, or the count is 4 while no `scale` argument is
supplied; a supplied `scale` not needed by a 3-placeholder template is
ignored, not an error. -/
theorem send_command_arity (formats : String → Option String)
    (cmd_type : String) (x y z : ℚ) (scale : Option ℚ) :
    send_command formats cmd_type x y z scale = none ↔
      (formats cmd_type = none ∨
        ∃ f, formats cmd_type = some f ∧
          ((placeholderCount f ≠ 3 ∧ placeholderCount f ≠ 4) ∨
            (placeholderCount f = 4 ∧ scale = none))) := by
  cases hf : formats cmd_type with
  | none => simp [send_command, hf]
  | some f =>
    by_cases h3 : placeholderCount f = 3
    · simp [send_command, hf, h3]
    · by_cases h4 : placeholderCount f = 4
      · cases hs : scale with
        | none => simp [send_command, hf, h3, h4]
        | some s => simp [send_command, hf, h3, h4]
      · simp [send_command, hf, h3, h4]

/-- Witness for the amended C7 at concrete inputs: an unsupported
two-placeholder template is rejected. -/
theorem send_command_arity_witness :
    send_command (fun _ => some "pan %.2f %.2f") "pan" 1 2 3 none = none :=
  (send_command_arity (fun _ => some "pan %.2f %.2f") "pan" 1 2 3 none).mpr
    (Or.inr ⟨"pan %.2f %.2f", rfl, Or.inl ⟨by decide, by decide⟩⟩)

/-- Claim C8: `UDPManager.send_message` lazily creates the transport when
none is open before transmitting (udp_manager.py:52-54), and a transmit
failure is reported as a non-fatal `false` with the manager state — in
particular an open socket — left unchanged, so the next attempt proceeds
normally (udp_manager.py:56-61). -/
theorem send_message_lazy_and_nonfatal (m : UDPManager) (msg : String)
    (new_socket : Option Nat) (s s0 : Nat) (transmit_ok : Bool) :
    (m.socket = none → new_socket = some s →
      ((m.send_message msg new_socket transmit_ok).1.socket = some s
        ∧ (m.send_message msg new_socket transmit_ok).2 = transmit_ok))
  ∧ (m.socket = some s0 →
      (m.send_message msg new_socket false = (m, false)
        ∧ m.send_message msg new_socket true = (m, true))) := by
  constructor
  · intro hnone hs
    rw [UDPManager.send_message, hnone, hs]
    cases transmit_ok <;> simp [UDPManager.connect]
  · intro hsome
    rw [UDPManager.send_message, UDPManager.send_message, hsome]
    simp

/-- Witness for C8 at concrete managers: a closed transport is lazily
created and used; a failed transmit on an open transport returns `false`
and leaves the manager unchanged, and the following attempt succeeds. -/
theorem send_message_lazy_and_nonfatal_witness :
    ((UDPManager.mk none "127.0.0.1" 7755).send_message "move 1.00 0.00 0.00"
        (some 7) true).1.socket = some 7
  ∧ ((UDPManager.mk (some 7) "127.0.0.1" 7755).send_message "move 1.00 0.00 0.00"
        none false
      = (UDPManager.mk (some 7) "127.0.0.1" 7755, false)
    ∧ (UDPManager.mk (some 7) "127.0.0.1" 7755).send_message "move 1.00 0.00 0.00"
        none true
      = (UDPManager.mk (some 7) "127.0.0.1" 7755, true)) :=
  ⟨((send_message_lazy_and_nonfatal (UDPManager.mk none "127.0.0.1" 7755)
      "move 1.00 0.00 0.00" (some 7) 7 7 true).1 rfl rfl).1,
    (send_message_lazy_and_nonfatal (UDPManager.mk (some 7) "127.0.0.1" 7755)
      "move 1.00 0.00 0.00" none 7 7 true).2 rfl⟩

/-- A tick arriving less than 100 ms after the last send is dropped:
no datagram is produced and the rate-limit bookkeeping
(`last_send_time`) as well as the session fields are left unchanged
(main_window.py:1221 guards the whole dispatch branch). -/
theorem tick_none_of_ratelimit (formats : String → Option String)
    (st : ReaderState) (inp : TickInput)
    (h : inp.now - st.last_send_time < 1/10) :
    (read_gamepad_input formats st inp).2 = none
  ∧ (read_gamepad_input formats st inp).1.last_send_time = st.last_send_time
  ∧ (read_gamepad_input formats st inp).1.is_reading_input = st.is_reading_input
  ∧ (read_gamepad_input formats st inp).1.gamepad_connected = st.gamepad_connected
  ∧ (read_gamepad_input formats st inp).1.x_offset = st.x_offset
  ∧ (read_gamepad_input formats st inp).1.y_offset = st.y_offset
  ∧ (read_gamepad_input formats st inp).1.flags = st.flags := by
  simp only [read_gamepad_input]
  split_ifs with hguard hgate hrate
  · simp
  · exact absurd hrate (not_le.mpr (by linarith))
  · simp
  · simp

/-- A tick that dispatched a datagram was in the reading state, keeps it,
records the tick's wall-clock time as the new `last_send_time`
(main_window.py:1245), and leaves offsets and mapping flags unchanged. -/
theorem tick_some_inv (formats : String → Option String)
    (st st' : ReaderState) (inp : TickInput) (out : List ℚ)
    (h : read_gamepad_input formats st inp = (st', some out)) :
    st.is_reading_input = true ∧ st.gamepad_connected = true
  ∧ st'.is_reading_input = true ∧ st'.gamepad_connected = true
  ∧ st'.last_send_time = inp.now
  ∧ st'.x_offset = st.x_offset ∧ st'.y_offset = st.y_offset
  ∧ st'.flags = st.flags := by
  simp only [read_gamepad_input] at h
  split_ifs at h with hguard hgate hrate
  · simp at h
  · simp only [not_or, not_not] at hguard
    cases hrt : inp.rotation_text with
    | none => rw [hrt] at h; simp at h
    | some sc =>
      rw [hrt] at h
      simp only [Prod.mk.injEq] at h
      obtain ⟨hst, _⟩ := h
      subst hst
      exact ⟨hguard.1, hguard.2, hguard.1, hguard.2, rfl, rfl, rfl, rfl⟩
  · simp at h
  · simp at h

/-- A tick in the reading state whose gates pass, whose rate-limit
interval has elapsed, whose rotation text parses, and whose command type
resolves to a three-placeholder template, dispatches a datagram. -/
theorem tick_sends (formats : String → Option String) (st : ReaderState)
    (inp : TickInput) (sc : ℚ) (f : String)
    (hread : st.is_reading_input = true)
    (hpad : st.gamepad_connected = true)
    (hpos : 1/10 < |(filtered_axes st inp.raw_x inp.raw_y).1|
      ∨ 1/10 < |(filtered_axes st inp.raw_x inp.raw_y).2|)
    (hmov : 1/100 < |(filtered_axes st inp.raw_x inp.raw_y).1 - st.prev_x_axis|
      ∨ 1/100 < |(filtered_axes st inp.raw_x inp.raw_y).2 - st.prev_y_axis|)
    (hrate : 1/10 ≤ inp.now - st.last_send_time)
    (hrt : inp.rotation_text = some sc)
    (hfmt : formats inp.cmd_type = some f)
    (hcount : placeholderCount f = 3) :
    (read_gamepad_input formats st inp).2 ≠ none := by
  simp only [read_gamepad_input]
  rw [if_neg (by simp [hread, hpad]), if_pos ⟨hpos, hmov⟩, if_pos hrate, hrt]
  simp [send_command, hfmt, hcount]

/-- Claim C1: on every processed tick, a command is formatted and
dispatched only when both send gates hold simultaneously — some filtered
axis magnitude strictly exceeds `0.1` and some axis moved by more than
`0.01` since the previous stored sample (the previous tick's filtered
values, main_window.py:1216-1220); whenever either gate fails the tick
produces no send. -/
theorem tick_sends_only_when_gates_pass (formats : String → Option String)
    (st st' : ReaderState) (inp : TickInput) (out : List ℚ)
    (h : read_gamepad_input formats st inp = (st', some out)) :
    (1/10 < |(filtered_axes st inp.raw_x inp.raw_y).1|
      ∨ 1/10 < |(filtered_axes st inp.raw_x inp.raw_y).2|)
  ∧ (1/100 < |(filtered_axes st inp.raw_x inp.raw_y).1 - st.prev_x_axis|
      ∨ 1/100 < |(filtered_axes st inp.raw_x inp.raw_y).2 - st.prev_y_axis|) := by
  simp only [read_gamepad_input] at h
  split_ifs at h with hguard hgate hrate
  · simp at h
  · exact hgate
  · simp at h
  · simp at h

/-- Witness for C1 at a concrete sending tick: from `st_ready`, the tick
`tick1` dispatches, and both gates indeed hold there. -/
theorem tick_sends_only_when_gates_pass_witness :
    (1/10 < |(filtered_axes st_ready tick1.raw_x tick1.raw_y).1|
      ∨ 1/10 < |(filtered_axes st_ready tick1.raw_x tick1.raw_y).2|)
  ∧ (1/100 < |(filtered_axes st_ready tick1.raw_x tick1.raw_y).1 - st_ready.prev_x_axis|
      ∨ 1/100 < |(filtered_axes st_ready tick1.raw_x tick1.raw_y).2 - st_ready.prev_y_axis|) := by
  apply tick_sends_only_when_gates_pass fmts_move st_ready st_after tick1 [1/2, 0, 0]
  norm_num [read_gamepad_input, filtered_axes, st_ready, st_after, tick1,
    fmts_move, mapArgs, setup_gamepad_flags, send_command, placeholderCount,
    countPlaceholders, abs_of_nonneg, abs_of_nonpos]

/-- Claim C2 (code_bug evidence): the program can never transmit a
datagram on this path, so no attempt — first, second or third — ever
results in a transmission. `MainWindow.udp_socket` is initialised to
`None` (main_window.py:27) and never reassigned, so the `sendto` at
main_window.py:1138 raises `AttributeError` on every call and
`send_command` returns `False`: for every command type, arguments,
scale, port parse and network condition, the transmit outcome is
`false`. In particular the concrete tick `tick1` from `st_ready` passes
both send gates and the rate check and reaches the dispatch branch with
formatted arguments `[1/2, 0, 0]`, yet even this attempt transmits
nothing — against the claim's "exactly one datagram is transmitted" and
"results in a second transmission". The rate-limit logic itself
(drop while `time_diff < 0.1`, proceed once `0.1 ≤ time_diff`,
main_window.py:1209-1245) is faithfully present in `read_gamepad_input`
(see `tick_none_of_ratelimit` and `tick_sends`), but its output can
never become a datagram. -/
theorem no_datagram_is_ever_transmitted :
    (∀ (formats : String → Option String) (cmd_type : String) (x y z : ℚ)
      (scale : Option ℚ) (port : Option Nat) (network_ok : Bool),
      send_command_transmits formats cmd_type x y z scale port
        main_window_udp_socket network_ok = false)
  ∧ (read_gamepad_input fmts_move st_ready tick1).2 = some [1/2, 0, 0]
  ∧ send_command_transmits fmts_move "move" (1/2) 0 0 (some 40) (some 7755)
      main_window_udp_socket true = false := by
  refine ⟨?_, ?_, rfl⟩
  · intro formats cmd_type x y z scale port network_ok
    simp only [send_command_transmits, main_window_udp_socket]
    cases send_command formats cmd_type x y z scale with
    | none => rfl
    | some args =>
      cases port with
      | none => rfl
      | some p => rfl
  · norm_num [read_gamepad_input, filtered_axes, st_ready, tick1,
      fmts_move, mapArgs, setup_gamepad_flags, send_command, placeholderCount,
      countPlaceholders, abs_of_nonneg, abs_of_nonpos]
